import Mathlib

/-!
Shallow embedding of `src/mcp/src/graph-api-helper.ts` (class `GraphApiHelper`
with `callGraphApi`, `callAzureApi`, `hasMorePages`) and of the
`set-access-token` tool handler of `src/mcp/src/tools/auth-tools.ts`,
together with theorems about them.

JavaScript values flowing through the dispatch layer are modelled by the
inductive type `Json` below.  `JSON.parse` of a response body is treated as
an oracle carried by the transport result (`FetchResult.json`); HTTP
transport is an abstract function `FetchRequest → FetchResult`, and the
Microsoft Graph SDK client is an abstract function
`GraphRequest → GraphMethodCall → GraphOutcome`.  The `while` loop of
`callAzureApi`'s pagination is embedded with explicit fuel; running out of
fuel (`none`) models the JavaScript loop still running.  Both entry points
are written in a writer style, additionally returning the list of HTTP
round trips they perform, so that single-round-trip properties are
statable.
-/

/-- JavaScript/JSON values as seen by the dispatch layer.  Numbers are
modelled by `Int` (no claim exercises float behaviour); `undefined` is
modelled by `Option.none` at the places where it can occur. -/
inductive Json where
  | null
  | bool (b : Bool)
  | num (n : Int)
  | str (s : String)
  | arr (xs : List Json)
  | obj (kvs : List (String × Json))


/-- JavaScript property access `v[k]`: `none` models `undefined`.
JS object literals parsed from JSON have unique keys in every scenario the
claims use, so first-match lookup is adequate. -/
def Json.get : Json → String → Option Json
  | .obj kvs, k => kvs.lookup k
  | _, _ => none

/-- JavaScript truthiness of a value (`NaN` not modelled). -/
def Json.truthy : Json → Bool
  | .null => false
  | .bool b => b
  | .num n => n != 0
  | .str s => s != ""
  | .arr _ => true
  | .obj _ => true

/-- Truthiness of a possibly-`undefined` value, as in `data && data[key]`. -/
def jsTruthyOpt : Option Json → Bool
  | some v => v.truthy
  | none => false

mutual

/-- `JSON.stringify` (string escaping omitted: no claim exercises it). -/
def Json.stringify : Json → String
  | .null => "null"
  | .bool b => cond b "true" "false"
  | .num n => toString n
  | .str s => "\"" ++ s ++ "\""
  | .arr xs => "[" ++ Json.stringifyElems xs ++ "]"
  | .obj kvs => "\x7b" ++ Json.stringifyFields kvs ++ "\x7d"

def Json.stringifyElems : List Json → String
  | [] => ""
  | [x] => Json.stringify x
  | x :: y :: xs => Json.stringify x ++ "," ++ Json.stringifyElems (y :: xs)

def Json.stringifyFields : List (String × Json) → String
  | [] => ""
  | [(k, v)] => "\"" ++ k ++ "\":" ++ Json.stringify v
  | (k, v) :: kv :: kvs =>
    "\"" ++ k ++ "\":" ++ Json.stringify v ++ "," ++ Json.stringifyFields (kv :: kvs)

end

mutual

/-- JavaScript `String(v)` coercion, used when a non-string `nextLink`
value is handed to `fetch` as a URL. -/
def Json.jsToString : Json → String
  | .null => "null"
  | .bool b => cond b "true" "false"
  | .num n => toString n
  | .str s => s
  | .arr xs => Json.jsToStringElems xs
  | .obj _ => "[object Object]"

/-- `Array.prototype.join` on the elements; `null` elements render as the
empty string. -/
def Json.jsToStringElems : List Json → String
  | [] => ""
  | [.null] => ""
  | [x] => Json.jsToString x
  | .null :: y :: xs => "," ++ Json.jsToStringElems (y :: xs)
  | x :: y :: xs => Json.jsToString x ++ "," ++ Json.jsToStringElems (y :: xs)

end

/-- `String.prototype.toLowerCase` restricted to ASCII, as an executable
character map (the method strings are ASCII). -/
def jsToLowerCase (s : String) : String :=
  ⟨s.data.map Char.toLower⟩

/-- `String.prototype.toUpperCase` restricted to ASCII. -/
def jsToUpperCase (s : String) : String :=
  ⟨s.data.map Char.toUpper⟩

/-- The `ApiResponse` interface of `graph-api-helper.ts`.  `data = none`
models `data: null` (or absent data); `error`/`statusCode` are the optional
fields. -/
structure ApiResponse where
  data : Option Json
  error : Option String
  statusCode : Option Nat


/-- One HTTP round trip as issued through `fetch`: URL, upper-cased method
and, when present, the serialized request body.  Headers carry only the
bearer token and a content type and are not modelled. -/
structure FetchRequest where
  url : String
  method : String
  body : Option String


/-- The transport's answer: HTTP status, the body text (`response.text()`),
and the `JSON.parse` oracle for that text (`none` = the text is not valid
JSON). -/
structure FetchResult where
  status : Nat
  text : String
  json : Option Json


/-- `response.ok`: status in the range 200–299. -/
def FetchResult.ok (r : FetchResult) : Bool :=
  200 ≤ r.status && r.status ≤ 299

/-- `responseText ? JSON.parse(responseText) : {}` with the surrounding
`try`/`catch` that degrades an unparsable body to
`{ rawResponse: responseText }`. -/
def parseBody (r : FetchResult) : Json :=
  if r.text = "" then .obj []
  else
    match r.json with
    | some j => j
    | none => .obj [("rawResponse", .str r.text)]

/-- The credential returned by `authManager.getAzureCredential()`.
`token = none` models `getToken` resolving to `null` or to a response
without a token; an empty-string token is falsy in the source's check. -/
structure AzureCredential where
  token : Option String

/-- `!tokenResponse || !tokenResponse.token` negated: the token acquisition
succeeded with a truthy token. -/
def AzureCredential.tokenOk (c : AzureCredential) : Bool :=
  match c.token with
  | some t => t != ""
  | none => false

/-- The slice of `AuthManager` (`auth.ts`) that `callAzureApi` consumes. -/
structure AuthManager where
  azureCredential : AzureCredential

/-- `AzureApiCallParams` of `graph-api-helper.ts`.  Optional fields are
`Option`s; `fetchAll = none` models an absent flag (defaulted to `false`
by the destructuring in the source). -/
structure AzureApiCallParams where
  path : String
  method : String
  apiVersion : String
  subscriptionId : Option String
  queryParams : Option (List (String × String))
  body : Option Json
  fetchAll : Option Bool

/-- URL construction of `callAzureApi` (lines 199–212): base URL, optional
`/subscriptions/…` segment (skipped for a falsy `subscriptionId`), the
path, then `api-version` followed by the query parameters.
`URLSearchParams` percent-encoding is abstracted to the identity: no claim
depends on it. -/
def azureUrl (subscriptionId : Option String) (path : String) (apiVersion : String)
    (queryParams : Option (List (String × String))) : String :=
  let u := "https://management.azure.com" ++
    (match subscriptionId with
     | some s => if s != "" then "/subscriptions/" ++ s else ""
     | none => "") ++ path
  let ps := ("api-version", apiVersion) ::
    (match queryParams with
     | some q => q
     | none => [])
  u ++ "?" ++ String.intercalate "&" (ps.map (fun kv => kv.1 ++ "=" ++ kv.2))

/-- `requestOptions.body`: present only for POST/PUT/PATCH, where a falsy
body is normalized to `JSON.stringify({})`. -/
def azureBody (method : String) (body : Option Json) : Option String :=
  if jsToUpperCase method = "POST" || jsToUpperCase method = "PUT" || jsToUpperCase method = "PATCH" then
    some (match body with
          | some b => if b.truthy then b.stringify else (Json.obj []).stringify
          | none => (Json.obj []).stringify)
  else none

/-- The error text thrown for a non-2xx page during Azure RM pagination
(line 257 of the source). -/
def azurePaginationErrorMsg (status : Nat) (url : String) (pageData : Json) : String :=
  "API error (" ++ toString status ++ ") during Azure RM pagination on " ++
    url ++ ": " ++ pageData.stringify

/-- The error text thrown for a non-2xx single-page Azure RM response
(line 284 of the source). -/
def azureSingleErrorMsg (status : Nat) (responseData : Json) : String :=
  "API error (" ++ toString status ++ ") for Azure RM: " ++ responseData.stringify

/-- The `while (currentUrl)` pagination loop of `callAzureApi`
(lines 235–268), with explicit fuel.  Returns the loop's outcome
(`none` = fuel exhausted, i.e. the JS loop is still running;
`Except.error` = a thrown error) paired with the trace of HTTP round
trips.  Each iteration re-acquires a token from the same credential,
fetches the current URL, parses the body, aborts on a non-2xx status,
accumulates `value` elements (or, on the very first URL with no truthy
`nextLink`, the whole payload), and advances to the truthy `nextLink` if
any. -/
def azureFetchAllLoopT (cred : AzureCredential) (fetchFn : FetchRequest → FetchResult)
    (origUrl : String) :
    Nat → String → List Json → Option (Except String (List Json)) × List FetchRequest
  | 0, _, _ => (none, [])
  | fuel + 1, currentUrl, allValues =>
    if cred.tokenOk then
      let req : FetchRequest := ⟨currentUrl, "GET", none⟩
      let page := fetchFn req
      let pageData := parseBody page
      if page.ok then
        let allValues' :=
          match pageData.get "value" with
          | some (.arr xs) => allValues ++ xs
          | _ =>
            if currentUrl == origUrl && !jsTruthyOpt (pageData.get "nextLink") then
              allValues ++ [pageData]
            else allValues
        match pageData.get "nextLink" with
        | some nl =>
          if nl.truthy then
            let rest := azureFetchAllLoopT cred fetchFn origUrl fuel nl.jsToString allValues'
            (rest.1, req :: rest.2)
          else (some (.ok allValues'), [req])
        | none => (some (.ok allValues'), [req])
      else
        (some (.error (azurePaginationErrorMsg page.status currentUrl pageData)), [req])
    else
      (some (.error "Failed to acquire Azure access token during pagination"), [])

/-- `callAzureApi` (lines 172–301), in writer style: the `ApiResponse`
(`none` = the pagination loop has not terminated) paired with the trace of
HTTP round trips.  Thrown errors are caught at the function's boundary and
mapped to `{ data: null, error, statusCode: undefined }` (the thrown
`Error` objects carry no `statusCode`). -/
def callAzureApiT (authManager : Option AuthManager) (fetchFn : FetchRequest → FetchResult)
    (fuel : Nat) (p : AzureApiCallParams) : Option ApiResponse × List FetchRequest :=
  match authManager with
  | none => (some ⟨none, some "Auth manager not initialized", none⟩, [])
  | some am =>
    let cred := am.azureCredential
    if cred.tokenOk then
      let url := azureUrl p.subscriptionId p.path p.apiVersion p.queryParams
      if p.fetchAll.getD false && p.method == "get" then
        match azureFetchAllLoopT cred fetchFn url fuel url [] with
        | (none, tr) => (none, tr)
        | (some (.error msg), tr) => (some ⟨none, some msg, none⟩, tr)
        | (some (.ok vs), tr) =>
          (some ⟨some (.obj [("allValues", .arr vs)]), none, none⟩, tr)
      else
        let req : FetchRequest := ⟨url, jsToUpperCase p.method, azureBody p.method p.body⟩
        let resp := fetchFn req
        let responseData := parseBody resp
        if resp.ok then
          (some ⟨some responseData, none, none⟩, [req])
        else
          (some ⟨none, some (azureSingleErrorMsg resp.status responseData), none⟩, [req])
    else
      (some ⟨none, some "Failed to acquire Azure access token", none⟩, [])

/-- The `ApiResponse` view of `callAzureApi`. -/
def callAzureApi (authManager : Option AuthManager) (fetchFn : FetchRequest → FetchResult)
    (fuel : Nat) (p : AzureApiCallParams) : Option ApiResponse :=
  (callAzureApiT authManager fetchFn fuel p).1

/-- An error thrown by the Graph SDK: its `message` and optional
`statusCode`. -/
structure GraphError where
  message : String
  statusCode : Option Nat

/-- `error.statusCode || undefined` in the catch block: a falsy (zero or
absent) status code becomes `undefined`. -/
def jsStatusCode : Option Nat → Option Nat
  | some n => if n = 0 then none else some n
  | none => none

/-- The request the Graph SDK client is asked to execute: path, effective
API version, query parameters (added only when non-empty) and extra
headers (`ConsistencyLevel` when truthy). -/
structure GraphRequest where
  path : String
  version : String
  queryParams : List (String × String)
  headers : List (String × String)

/-- Which terminal SDK method is invoked on the request builder. -/
inductive GraphMethodCall where
  | get
  | post (body : Json)
  | put (body : Json)
  | patch (body : Json)
  | delete

/-- Outcome of one SDK round trip: the SDK threw, returned a parsed body,
or resolved with `undefined`/no content. -/
inductive GraphOutcome where
  | threw (e : GraphError)
  | returned (j : Json)
  | noContent

/-- The Graph SDK `Client`, abstracted to the one capability
`callGraphApi` uses: executing a built request with a terminal method. -/
structure GraphClient where
  run : GraphRequest → GraphMethodCall → GraphOutcome

/-- `GraphApiCallParams` of `graph-api-helper.ts`; absent optional fields
are `none` (`fetchAll` is defaulted to `false`, `graphApiVersion` to the
helper's default, by the destructuring in the source). -/
structure GraphApiCallParams where
  path : String
  method : String
  queryParams : Option (List (String × String))
  body : Option Json
  graphApiVersion : Option String
  fetchAll : Option Bool
  consistencyLevel : Option String

/-- The `GraphApiHelper` instance state (constructor fields, lines 32–48). -/
structure GraphApiHelper where
  graphClient : Option GraphClient
  authManager : Option AuthManager
  useGraphBeta : Bool
  defaultGraphApiVersion : String

/-- Request construction of `callGraphApi` (lines 59–86): the effective
version is forced to `"v1.0"` when `useGraphBeta` is false, otherwise it
is the per-call version defaulted to the helper's default; query
parameters are attached only when present and non-empty; a truthy
`consistencyLevel` becomes a `ConsistencyLevel` header. -/
def graphRequestOf (h : GraphApiHelper) (p : GraphApiCallParams) : GraphRequest :=
  let graphApiVersion := p.graphApiVersion.getD h.defaultGraphApiVersion
  let effectiveGraphApiVersion := if !h.useGraphBeta then "v1.0" else graphApiVersion
  let qp :=
    match p.queryParams with
    | some q => if q.length > 0 then q else []
    | none => []
  let hs :=
    match p.consistencyLevel with
    | some c => if c != "" then [("ConsistencyLevel", c)] else []
    | none => []
  ⟨p.path, effectiveGraphApiVersion, qp, hs⟩

/-- `body ?? {}` (nullish coalescing) for POST/PUT/PATCH requests. -/
def coalesceBody : Option Json → Json
  | none => .obj []
  | some .null => .obj []
  | some b => b

/-- `Array.isArray(firstPageResponse.value) ? firstPageResponse.value : []`. -/
def graphPageItems (page : Json) : List Json :=
  match page.get "value" with
  | some (.arr xs) => xs
  | _ => []

/-- The envelope `{ "@odata.context": odataContext, value: allItems }`
built by the `fetchAll` branch (lines 116–119).  A key holding `undefined`
is dropped by JSON serialization, so an absent context is modelled as an
absent key. -/
def graphFetchAllEnvelope (page : Json) : Json :=
  match page.get "@odata.context" with
  | some ctx => .obj [("@odata.context", ctx), ("value", .arr (graphPageItems page))]
  | none => .obj [("value", .arr (graphPageItems page))]

/-- The synthetic payload substituted for a 204 No Content delete
response (line 144). -/
def deleteSyntheticPayload : Json :=
  .obj [("status", .str "Success (No Content)")]

/-- The V8 `TypeError` message raised when the `fetchAll` branch reads
`firstPageResponse[\x27@odata.context\x27]` off an `undefined` SDK
result; it is caught and re-thrown as a `FetchAll failed:` error. -/
def undefinedReadContextMsg : String :=
  "Cannot read properties of undefined (reading \x27@odata.context\x27)"

/-- `callGraphApi` (lines 53–167), in writer style: the `ApiResponse`
paired with the trace of SDK round trips.  All thrown errors are caught at
the function's boundary and mapped to
`{ data: null, error: message, statusCode: error.statusCode || undefined }`. -/
def callGraphApiT (h : GraphApiHelper) (p : GraphApiCallParams) :
    ApiResponse × List (GraphRequest × GraphMethodCall) :=
  match h.graphClient with
  | none => (⟨none, some "Graph client not initialized", none⟩, [])
  | some client =>
    let req := graphRequestOf h p
    match jsToLowerCase p.method with
    | "get" =>
      if p.fetchAll.getD false then
        match client.run req .get with
        | .threw e =>
          (⟨none, some ("FetchAll failed: " ++ e.message), none⟩, [(req, .get)])
        | .noContent =>
          (⟨none, some ("FetchAll failed: " ++ undefinedReadContextMsg), none⟩, [(req, .get)])
        | .returned j =>
          (⟨some (graphFetchAllEnvelope j), none, none⟩, [(req, .get)])
      else
        match client.run req .get with
        | .threw e => (⟨none, some e.message, jsStatusCode e.statusCode⟩, [(req, .get)])
        | .noContent => (⟨none, none, none⟩, [(req, .get)])
        | .returned j => (⟨some j, none, none⟩, [(req, .get)])
    | "post" =>
      match client.run req (.post (coalesceBody p.body)) with
      | .threw e =>
        (⟨none, some e.message, jsStatusCode e.statusCode⟩, [(req, .post (coalesceBody p.body))])
      | .noContent => (⟨none, none, none⟩, [(req, .post (coalesceBody p.body))])
      | .returned j => (⟨some j, none, none⟩, [(req, .post (coalesceBody p.body))])
    | "put" =>
      match client.run req (.put (coalesceBody p.body)) with
      | .threw e =>
        (⟨none, some e.message, jsStatusCode e.statusCode⟩, [(req, .put (coalesceBody p.body))])
      | .noContent => (⟨none, none, none⟩, [(req, .put (coalesceBody p.body))])
      | .returned j => (⟨some j, none, none⟩, [(req, .put (coalesceBody p.body))])
    | "patch" =>
      match client.run req (.patch (coalesceBody p.body)) with
      | .threw e =>
        (⟨none, some e.message, jsStatusCode e.statusCode⟩, [(req, .patch (coalesceBody p.body))])
      | .noContent => (⟨none, none, none⟩, [(req, .patch (coalesceBody p.body))])
      | .returned j => (⟨some j, none, none⟩, [(req, .patch (coalesceBody p.body))])
    | "delete" =>
      match client.run req .delete with
      | .threw e => (⟨none, some e.message, jsStatusCode e.statusCode⟩, [(req, .delete)])
      | .noContent => (⟨some deleteSyntheticPayload, none, none⟩, [(req, .delete)])
      | .returned .null => (⟨some deleteSyntheticPayload, none, none⟩, [(req, .delete)])
      | .returned j => (⟨some j, none, none⟩, [(req, .delete)])
    | _ => (⟨none, some ("Unsupported method: " ++ p.method), none⟩, [])

/-- The `ApiResponse` view of `callGraphApi`. -/
def callGraphApi (h : GraphApiHelper) (p : GraphApiCallParams) : ApiResponse :=
  (callGraphApiT h p).1

/-- The cursor key chosen by `hasMorePages`:
`apiType === \x27graph\x27 ? \x27@odata.nextLink\x27 : \x27nextLink\x27`. -/
def nextLinkKey (apiType : String) : String :=
  if apiType == "graph" then "@odata.nextLink" else "nextLink"

/-- `hasMorePages(data, apiType)` (lines 306–309):
`data && data[nextLinkKey] ? true : false`. -/
def hasMorePages (data : Json) (apiType : String) : Bool :=
  if data.truthy && jsTruthyOpt (data.get (nextLinkKey apiType)) then true else false

/-- `AuthMode` of `auth.ts` as referenced by the tool handlers. -/
inductive AuthMode where
  | ClientCredentials
  | Certificate
  | Interactive
  | ClientProvidedToken
deriving DecidableEq

/-- The mutable token state of an `AuthManager` as seen by
`updateAccessToken`: mode, held token, optional expiry.  The expiry is
modelled by the source string handed to `new Date(...)`. -/
structure AuthManagerState where
  mode : AuthMode
  accessToken : Option String
  expiresOn : Option String

/-- Modelled from the spec: `AuthManager.updateAccessToken(token, expiry?)`
of `auth.ts`, which is not among the provided sources — "valid only in
`ClientProvidedToken` mode; replaces the held token and optional expiry
atomically; other modes signal `InvalidOperationError`". -/
def updateAccessToken (st : AuthManagerState) (token : String) (expiry : Option String) :
    Except String AuthManagerState :=
  match st.mode with
  | .ClientProvidedToken => .ok (AuthManagerState.mk st.mode (some token) expiry)
  | _ => .error "InvalidOperationError"

/-- A tool result: its text and the `isError` flag. -/
structure ToolResult where
  text : String
  isError : Bool

/-- Success text of the `set-access-token` tool. -/
def setTokenSuccessMsg : String :=
  "Access token updated successfully. You can now make Microsoft Graph requests on behalf of the authenticated user."

/-- Error text of the `set-access-token` tool outside
`ClientProvidedToken` mode. -/
def setTokenModeErrorMsg : String :=
  "Error: MCP Server is not configured for client-provided token authentication. Set USE_CLIENT_TOKEN=true in environment variables."

/-- `expiresOn ? new Date(expiresOn) : undefined`: a falsy (absent or
empty) expiry string becomes `undefined`. -/
def parseExpiry : Option String → Option String
  | some s => if s = "" then none else some s
  | none => none

/-- The `set-access-token` handler of `auth-tools.ts` (lines 32–80),
restricted to the authentication state it reads and writes: returns the
tool result and the (possibly updated) manager state.  The Graph client /
API helper reconstruction performed on success touches no token state and
is not modelled.  A thrown `updateAccessToken` error is caught and
reported as `Error setting access token: …`. -/
def setAccessTokenHandler (am : Option AuthManagerState) (accessToken : String)
    (expiresOn : Option String) : ToolResult × Option AuthManagerState :=
  let expirationDate := parseExpiry expiresOn
  match am with
  | some st =>
    if st.mode = AuthMode.ClientProvidedToken then
      match updateAccessToken st accessToken expirationDate with
      | .ok st' => (⟨setTokenSuccessMsg, false⟩, some st')
      | .error e => (⟨"Error setting access token: " ++ e, true⟩, some st)
    else (⟨setTokenModeErrorMsg, true⟩, some st)
  | none => (⟨setTokenModeErrorMsg, true⟩, none)

/-- Concrete two-page transport for the `azure_fetchAll_appends_pages_in_order`
witness: P1 = `{ value: [a, b], nextLink: /page2 }`, P2 = `{ value: [c] }`. -/
def twoPageFetch : FetchRequest → FetchResult := fun r =>
  if r.url = "https://management.azure.com/page2" then
    ⟨200, "p2", some (.obj [("value", .arr [.str "c"])])⟩
  else
    ⟨200, "p1", some (.obj [("value", .arr [.str "a", .str "b"]),
      ("nextLink", .str "https://management.azure.com/page2")])⟩

/-- Concrete transport for the `azure_fetchAll_aborts_on_non_2xx` witness:
the first page is fine, the second answers 403. -/
def failingPageFetch : FetchRequest → FetchResult := fun r =>
  if r.url = "https://management.azure.com/page2" then
    ⟨403, "denied", some (.obj [("error", .str "Forbidden")])⟩
  else
    ⟨200, "p1", some (.obj [("value", .arr [.str "a"]),
      ("nextLink", .str "https://management.azure.com/page2")])⟩

/-- Concrete transport where the second page answers 2xx with a body that
is not valid JSON (`json = none` models the `JSON.parse` failure). -/
def malformedPage2Fetch : FetchRequest → FetchResult := fun r =>
  if r.url = "https://management.azure.com/page2" then
    ⟨200, "<html>boom</html>", none⟩
  else
    ⟨200, "p1", some (.obj [("value", .arr [.str "a"]),
      ("nextLink", .str "https://management.azure.com/page2")])⟩

/-- C5: `hasMorePages(data, apiType)` returns true exactly when the payload
is truthy and the backend-appropriate cursor key (`@odata.nextLink` for
`"graph"`, `nextLink` otherwise) is present with a truthy value; in
particular a Graph-style payload carrying `nextLink` but no
`@odata.nextLink` yields `false` for `"graph"`.  The predicate is a pure
function of its two arguments (it is a plain `def` with no state). -/
theorem hasMorePages_cursor_key_spec :
    (∀ d t, hasMorePages d t = (d.truthy && jsTruthyOpt (d.get (nextLinkKey t))))
    ∧ (∀ d t, hasMorePages d t = true ↔
        (d.truthy = true ∧ ∃ v, d.get (nextLinkKey t) = some v ∧ v.truthy = true))
    ∧ nextLinkKey "graph" = "@odata.nextLink"
    ∧ nextLinkKey "azure" = "nextLink"
    ∧ hasMorePages (.obj [("nextLink", .str "https://next.page")]) "graph" = false := by
  refine ⟨fun d t => ?_, fun d t => ?_, rfl, rfl, rfl⟩
  · cases h : (d.truthy && jsTruthyOpt (d.get (nextLinkKey t))) <;> simp [hasMorePages, h]
  · cases hg : d.get (nextLinkKey t) <;>
      cases h : (d.truthy && jsTruthyOpt (d.get (nextLinkKey t))) <;>
      simp_all [hasMorePages, jsTruthyOpt]

/-- C4: dispatch calls against an uninitialized helper do not raise: with a
null Graph client, `callGraphApi` returns
`{ data: null, error: "Graph client not initialized" }`, and with a null
auth manager `callAzureApi` returns
`{ data: null, error: "Auth manager not initialized" }`, for every request;
both messages contain "not initialized".  (That no exception crosses the
boundary is expressed by the embedding itself: both entry points are total
functions into `ApiResponse`, every thrown error being mapped to an error
result by the modelled catch-all.) -/
theorem uninitialized_dispatch_returns_error :
    (∀ am b v p, callGraphApi ⟨none, am, b, v⟩ p =
        ⟨none, some "Graph client not initialized", none⟩)
    ∧ (∀ fetchFn fuel p, callAzureApi none fetchFn fuel p =
        some ⟨none, some "Auth manager not initialized", none⟩)
    ∧ (∃ x, "Graph client not initialized" = x ++ "not initialized")
    ∧ (∃ x, "Auth manager not initialized" = x ++ "not initialized") :=
  ⟨fun _ _ _ _ => rfl, fun _ _ _ => rfl, ⟨"Graph client ", rfl⟩, ⟨"Auth manager ", rfl⟩⟩

/-- C10: version selection of `callGraphApi` — when the helper was built
with `useGraphBeta = false` every issued request carries version `"v1.0"`
(even if the call asked for `"beta"`); when `useGraphBeta = true` the
request carries the per-call version, defaulted to the helper's configured
default; and every SDK round trip `callGraphApi` performs uses exactly the
request built by `graphRequestOf`. -/
theorem graph_api_version_selection (h : GraphApiHelper) (p : GraphApiCallParams) :
    (h.useGraphBeta = false → (graphRequestOf h p).version = "v1.0")
    ∧ (h.useGraphBeta = true →
        (graphRequestOf h p).version = p.graphApiVersion.getD h.defaultGraphApiVersion)
    ∧ (∀ r c, (r, c) ∈ (callGraphApiT h p).2 → r = graphRequestOf h p) := by
  refine ⟨fun hb => by simp [graphRequestOf, hb], fun hb => by simp [graphRequestOf, hb], ?_⟩
  intro r c hm
  simp only [callGraphApiT] at hm
  cases hcl : h.graphClient with
  | none => simp [hcl] at hm
  | some client =>
    rw [hcl] at hm
    dsimp only at hm
    split at hm
    all_goals try split at hm
    all_goals try split at hm
    all_goals simp_all

/-- Witness for `graph_api_version_selection` at a concrete helper and
call. -/
theorem graph_api_version_selection_witness :
    (graphRequestOf ⟨none, none, false, "beta"⟩
      ⟨"/users", "get", none, none, some "beta", none, none⟩).version = "v1.0" :=
  (graph_api_version_selection ⟨none, none, false, "beta"⟩
    ⟨"/users", "get", none, none, some "beta", none, none⟩).1 rfl

/-- C2: on a Graph-style `get` with `fetchAll`, `callGraphApi` performs a
single SDK round trip and does not follow `@odata.nextLink`: the result is
the envelope `{ "@odata.context": <first page's context>, value: <first
page's value array> }` with exactly the first page's items, for every
first page `j` — in particular also when `j` carries an
`@odata.nextLink`. -/
theorem graph_fetchAll_returns_first_page_only (h : GraphApiHelper) (client : GraphClient)
    (p : GraphApiCallParams) (j ctx : Json) (xs : List Json)
    (hc : h.graphClient = some client)
    (hm : p.method = "get") (hfa : p.fetchAll = some true)
    (hrun : client.run (graphRequestOf h p) .get = .returned j)
    (hctx : j.get "@odata.context" = some ctx)
    (hval : j.get "value" = some (.arr xs)) :
    callGraphApiT h p =
      (⟨some (.obj [("@odata.context", ctx), ("value", .arr xs)]), none, none⟩,
       [(graphRequestOf h p, .get)]) := by
  simp [callGraphApiT, hc, hm, hfa, hrun, graphFetchAllEnvelope, graphPageItems, hctx, hval]
  rfl

/-- Witness for `graph_fetchAll_returns_first_page_only`: a concrete first
page with three users and a present `@odata.nextLink`, of which exactly
the three users come back. -/
theorem graph_fetchAll_returns_first_page_only_witness :
    callGraphApiT
      ⟨some ⟨fun _ _ => .returned (.obj
        [("@odata.context", .str "ctx"),
         ("value", .arr [.str "u1", .str "u2", .str "u3"]),
         ("@odata.nextLink", .str "https://graph.microsoft.com/v1.0/users?page=2")])⟩,
       none, true, "beta"⟩
      ⟨"/users", "get", none, none, none, some true, none⟩ =
      (⟨some (.obj [("@odata.context", .str "ctx"),
                    ("value", .arr [.str "u1", .str "u2", .str "u3"])]), none, none⟩,
       [(graphRequestOf
          ⟨some ⟨fun _ _ => .returned (.obj
            [("@odata.context", .str "ctx"),
             ("value", .arr [.str "u1", .str "u2", .str "u3"]),
             ("@odata.nextLink", .str "https://graph.microsoft.com/v1.0/users?page=2")])⟩,
           none, true, "beta"⟩
          ⟨"/users", "get", none, none, none, some true, none⟩, .get)]) :=
  graph_fetchAll_returns_first_page_only _ _ _ _ _ _ rfl rfl rfl rfl rfl rfl

/-- C8: for non-`get` methods no pagination happens regardless of
`fetchAll` — `callAzureApi` performs exactly the one round trip carrying
the normalized body, and `callGraphApi` performs exactly one SDK call;
for resource-management post/put/patch with an absent body the serialized
body is the empty object literal; and a Graph delete resolving with no
content (or `null`) yields the synthetic success payload
`{ status: "Success (No Content)" }`, while a resource-management delete
answered 2xx with an empty body yields the empty-object payload — callers
never observe an absent body on success. -/
theorem non_get_single_round_trip_and_normalization :
    (∀ (am : AuthManager) fetchFn fuel (p : AzureApiCallParams),
      am.azureCredential.tokenOk = true → p.method ≠ "get" →
      (callAzureApiT (some am) fetchFn fuel p).2 =
        [⟨azureUrl p.subscriptionId p.path p.apiVersion p.queryParams,
          jsToUpperCase p.method, azureBody p.method p.body⟩])
    ∧ (azureBody "post" none = some ((Json.obj []).stringify)
       ∧ azureBody "put" none = some ((Json.obj []).stringify)
       ∧ azureBody "patch" none = some ((Json.obj []).stringify)
       ∧ (Json.obj []).stringify = "\x7b\x7d")
    ∧ (∀ (h : GraphApiHelper) client (p : GraphApiCallParams),
      h.graphClient = some client →
      jsToLowerCase p.method = "post" ∨ jsToLowerCase p.method = "put" ∨
        jsToLowerCase p.method = "patch" ∨ jsToLowerCase p.method = "delete" →
      (callGraphApiT h p).2.length = 1)
    ∧ (∀ (h : GraphApiHelper) client (p : GraphApiCallParams),
      h.graphClient = some client → jsToLowerCase p.method = "delete" →
      (client.run (graphRequestOf h p) .delete = .noContent ∨
       client.run (graphRequestOf h p) .delete = .returned .null) →
      callGraphApi h p = ⟨some deleteSyntheticPayload, none, none⟩)
    ∧ (∀ (am : AuthManager) fetchFn fuel (p : AzureApiCallParams),
      am.azureCredential.tokenOk = true → p.method = "delete" →
      (fetchFn ⟨azureUrl p.subscriptionId p.path p.apiVersion p.queryParams,
        jsToUpperCase p.method, azureBody p.method p.body⟩).text = "" →
      (fetchFn ⟨azureUrl p.subscriptionId p.path p.apiVersion p.queryParams,
        jsToUpperCase p.method, azureBody p.method p.body⟩).ok = true →
      callAzureApi (some am) fetchFn fuel p = some ⟨some (.obj []), none, none⟩) := by
  refine ⟨?_, ⟨rfl, rfl, rfl, rfl⟩, ?_, ?_, ?_⟩
  · intro am fetchFn fuel p htok hne
    have hb : (p.method == "get") = false := by simp [hne]
    simp [callAzureApiT, htok, hb]
    split <;> rfl
  · intro h client p hc hmem
    rcases hmem with hm | hm | hm | hm <;>
      simp only [callGraphApiT, hc, hm] <;>
      split <;> rfl
  · intro h client p hc hm hrun
    rcases hrun with hr | hr <;>
      simp [callGraphApi, callGraphApiT, hc, hm, hr]
  · intro am fetchFn fuel p htok hm htext hok
    have hb : (p.method == "get") = false := by simp [hm]
    simp [callAzureApi, callAzureApiT, htok, hb, parseBody, htext, hok]

/-- Witness for `non_get_single_round_trip_and_normalization`: a concrete
resource-management `post` with `fetchAll: true` and no body still makes
exactly one round trip, carrying the empty object literal as its body. -/
theorem non_get_single_round_trip_witness :
    (callAzureApiT (some ⟨⟨some "tok"⟩⟩) (fun _ => ⟨200, "", none⟩) 1
      ⟨"/rg", "post", "2024-01-01", none, none, none, some true⟩).2 =
      [⟨azureUrl none "/rg" "2024-01-01" none, jsToUpperCase "post", azureBody "post" none⟩] :=
  non_get_single_round_trip_and_normalization.1 ⟨⟨some "tok"⟩⟩ (fun _ => ⟨200, "", none⟩) 1
    ⟨"/rg", "post", "2024-01-01", none, none, none, some true⟩ rfl (by decide)

/-- C1: resource-management `fetchAll` aggregation over a 2xx page
sequence P1 (`value` = `va`, `nextLink` = `u2`) and P2 (`value` = `vc`, no
`nextLink`) returns `{ allValues: va ++ vc }` — each page's `value`
elements appended in page order, under the accumulator key `allValues`
distinct from the single-page shape. -/
theorem azure_fetchAll_appends_pages_in_order
    (am : AuthManager) (fetchFn : FetchRequest → FetchResult) (p : AzureApiCallParams)
    (fuel : Nat) (url0 u2 : String) (r1 r2 : FetchResult) (j1 j2 : Json)
    (va vc : List Json)
    (htok : am.azureCredential.tokenOk = true)
    (hm : p.method = "get") (hfa : p.fetchAll = some true)
    (hurl : azureUrl p.subscriptionId p.path p.apiVersion p.queryParams = url0)
    (hf1 : fetchFn ⟨url0, "GET", none⟩ = r1) (hok1 : r1.ok = true)
    (hp1 : parseBody r1 = j1)
    (hv1 : j1.get "value" = some (.arr va))
    (hn1 : j1.get "nextLink" = some (.str u2)) (hu2 : u2 ≠ "")
    (hf2 : fetchFn ⟨u2, "GET", none⟩ = r2) (hok2 : r2.ok = true)
    (hp2 : parseBody r2 = j2)
    (hv2 : j2.get "value" = some (.arr vc))
    (hn2 : j2.get "nextLink" = none) :
    callAzureApi (some am) fetchFn (fuel + 2) p =
      some ⟨some (.obj [("allValues", .arr (va ++ vc))]), none, none⟩ := by
  have hbm : (p.method == "get") = true := by simp [hm]
  rw [show fuel + 2 = (fuel + 1) + 1 from rfl]
  simp [callAzureApi, callAzureApiT, htok, hfa, hbm, hurl, azureFetchAllLoopT,
    hf1, hok1, hp1, hv1, hn1, hu2, Json.truthy, Json.jsToString,
    hf2, hok2, hp2, hv2, hn2]

/-- Witness for `azure_fetchAll_appends_pages_in_order`: the synthetic
pages P1 (`value:[a,b]`, `nextLink`) and P2 (`value:[c]`) aggregate to
`{ allValues: [a, b, c] }`. -/
theorem azure_fetchAll_appends_pages_in_order_witness :
    callAzureApi (some ⟨⟨some "tok"⟩⟩) twoPageFetch 2
      ⟨"/items", "get", "2024-01-01", none, none, none, some true⟩ =
      some ⟨some (.obj [("allValues", .arr ([.str "a", .str "b"] ++ [.str "c"]))]), none, none⟩ :=
  azure_fetchAll_appends_pages_in_order ⟨⟨some "tok"⟩⟩ twoPageFetch
    ⟨"/items", "get", "2024-01-01", none, none, none, some true⟩ 0
    "https://management.azure.com/items?api-version=2024-01-01"
    "https://management.azure.com/page2"
    (twoPageFetch ⟨"https://management.azure.com/items?api-version=2024-01-01", "GET", none⟩)
    (twoPageFetch ⟨"https://management.azure.com/page2", "GET", none⟩)
    (.obj [("value", .arr [.str "a", .str "b"]),
      ("nextLink", .str "https://management.azure.com/page2")])
    (.obj [("value", .arr [.str "c"])])
    [.str "a", .str "b"] [.str "c"]
    rfl rfl rfl rfl rfl rfl rfl rfl rfl (by decide) rfl rfl rfl rfl rfl

/-- C7: a resource-management `fetchAll` whose first and only page answers
2xx with a payload that has no `value` array and no `nextLink` cursor is
wrapped as the one-element aggregate `{ allValues: [<payload>] }`. -/
theorem azure_fetchAll_single_page_without_value_wrapped
    (am : AuthManager) (fetchFn : FetchRequest → FetchResult) (p : AzureApiCallParams)
    (fuel : Nat) (url0 : String) (r : FetchResult) (j : Json)
    (htok : am.azureCredential.tokenOk = true)
    (hm : p.method = "get") (hfa : p.fetchAll = some true)
    (hurl : azureUrl p.subscriptionId p.path p.apiVersion p.queryParams = url0)
    (hf : fetchFn ⟨url0, "GET", none⟩ = r) (hok : r.ok = true)
    (hp : parseBody r = j)
    (hval : ∀ xs, j.get "value" ≠ some (.arr xs))
    (hnl : jsTruthyOpt (j.get "nextLink") = false) :
    callAzureApi (some am) fetchFn (fuel + 1) p =
      some ⟨some (.obj [("allValues", .arr [j])]), none, none⟩ := by
  have hbm : (p.method == "get") = true := by simp [hm]
  simp only [callAzureApi, callAzureApiT, htok, hfa, hbm, hurl, azureFetchAllLoopT,
    hf, hok, hp, Option.getD, Bool.and_self, if_true]
  cases hv : j.get "value" with
  | none =>
    cases hn : j.get "nextLink" with
    | none => simp [azureFetchAllLoopT, jsTruthyOpt, htok, hf, hok, hp, hv, hn]
    | some nl =>
      have hnt : nl.truthy = false := by
        rw [hn] at hnl; simpa [jsTruthyOpt] using hnl
      simp [azureFetchAllLoopT, jsTruthyOpt, htok, hf, hok, hp, hv, hn, hnl, hnt]
  | some v =>
    cases v with
    | arr xs => exact absurd hv (hval xs)
    | null =>
      cases hn : j.get "nextLink" with
      | none => simp [azureFetchAllLoopT, jsTruthyOpt, htok, hf, hok, hp, hv, hn]
      | some nl =>
        have hnt : nl.truthy = false := by
          rw [hn] at hnl; simpa [jsTruthyOpt] using hnl
        simp [azureFetchAllLoopT, jsTruthyOpt, htok, hf, hok, hp, hv, hn, hnl, hnt]
    | bool b =>
      cases hn : j.get "nextLink" with
      | none => simp [azureFetchAllLoopT, jsTruthyOpt, htok, hf, hok, hp, hv, hn]
      | some nl =>
        have hnt : nl.truthy = false := by
          rw [hn] at hnl; simpa [jsTruthyOpt] using hnl
        simp [azureFetchAllLoopT, jsTruthyOpt, htok, hf, hok, hp, hv, hn, hnl, hnt]
    | num n =>
      cases hn : j.get "nextLink" with
      | none => simp [azureFetchAllLoopT, jsTruthyOpt, htok, hf, hok, hp, hv, hn]
      | some nl =>
        have hnt : nl.truthy = false := by
          rw [hn] at hnl; simpa [jsTruthyOpt] using hnl
        simp [azureFetchAllLoopT, jsTruthyOpt, htok, hf, hok, hp, hv, hn, hnl, hnt]
    | str s =>
      cases hn : j.get "nextLink" with
      | none => simp [azureFetchAllLoopT, jsTruthyOpt, htok, hf, hok, hp, hv, hn]
      | some nl =>
        have hnt : nl.truthy = false := by
          rw [hn] at hnl; simpa [jsTruthyOpt] using hnl
        simp [azureFetchAllLoopT, jsTruthyOpt, htok, hf, hok, hp, hv, hn, hnl, hnt]
    | obj kvs =>
      cases hn : j.get "nextLink" with
      | none => simp [azureFetchAllLoopT, jsTruthyOpt, htok, hf, hok, hp, hv, hn]
      | some nl =>
        have hnt : nl.truthy = false := by
          rw [hn] at hnl; simpa [jsTruthyOpt] using hnl
        simp [azureFetchAllLoopT, jsTruthyOpt, htok, hf, hok, hp, hv, hn, hnl, hnt]

/-- Witness for `azure_fetchAll_single_page_without_value_wrapped`: a 2xx
page `{ id: 7 }` with no `value` array and no cursor comes back as
`{ allValues: [ { id: 7 } ] }`. -/
theorem azure_fetchAll_single_page_without_value_wrapped_witness :
    callAzureApi (some ⟨⟨some "tok"⟩⟩)
      (fun _ => ⟨200, "one", some (.obj [("id", .num 7)])⟩) 1
      ⟨"/one", "get", "2024-01-01", none, none, none, some true⟩ =
      some ⟨some (.obj [("allValues", .arr [.obj [("id", .num 7)]])]), none, none⟩ :=
  azure_fetchAll_single_page_without_value_wrapped ⟨⟨some "tok"⟩⟩
    (fun _ => ⟨200, "one", some (.obj [("id", .num 7)])⟩)
    ⟨"/one", "get", "2024-01-01", none, none, none, some true⟩ 0
    "https://management.azure.com/one?api-version=2024-01-01"
    ⟨200, "one", some (.obj [("id", .num 7)])⟩ (.obj [("id", .num 7)])
    rfl rfl rfl rfl rfl rfl rfl (fun xs h => by simp [Json.get, List.lookup] at h) rfl

/-- C3: resource-management `fetchAll` aborts on a non-2xx page — whenever
the pagination loop visits a URL whose response is not 2xx it stops at
once with an error naming that URL and status (discarding the accumulator,
so no items of any later page can appear), and `callAzureApi` surfaces
that error as `{ data: null, error: <the message> }`, which contains no
items at all. -/
theorem azure_fetchAll_aborts_on_non_2xx
    (am : AuthManager) (fetchFn : FetchRequest → FetchResult) (p : AzureApiCallParams)
    (fuel : Nat) (url0 : String)
    (htok : am.azureCredential.tokenOk = true)
    (hm : p.method = "get") (hfa : p.fetchAll = some true)
    (hurl : azureUrl p.subscriptionId p.path p.apiVersion p.queryParams = url0) :
    (∀ f u acc, (fetchFn ⟨u, "GET", none⟩).ok = false →
      azureFetchAllLoopT am.azureCredential fetchFn url0 (f + 1) u acc =
        (some (.error (azurePaginationErrorMsg (fetchFn ⟨u, "GET", none⟩).status u
          (parseBody (fetchFn ⟨u, "GET", none⟩)))), [⟨u, "GET", none⟩]))
    ∧ (∀ m tr,
        azureFetchAllLoopT am.azureCredential fetchFn url0 fuel url0 [] = (some (.error m), tr) →
        callAzureApiT (some am) fetchFn fuel p = (some ⟨none, some m, none⟩, tr)) := by
  have hbm : (p.method == "get") = true := by simp [hm]
  constructor
  · intro f u acc hbad
    simp [azureFetchAllLoopT, htok, hbad]
  · intro m tr hloop
    simp [callAzureApiT, htok, hfa, hbm, hurl, hloop]

/-- Witness for `azure_fetchAll_aborts_on_non_2xx`: with page 2 answering
403, the whole aggregation returns `data: null` and the pagination error
naming page 2's URL and status, and no item of page 1 or beyond. -/
theorem azure_fetchAll_aborts_on_non_2xx_witness :
    callAzureApiT (some ⟨⟨some "tok"⟩⟩) failingPageFetch 2
      ⟨"/items", "get", "2024-01-01", none, none, none, some true⟩ =
      (some ⟨none,
        some (azurePaginationErrorMsg 403 "https://management.azure.com/page2"
          (.obj [("error", .str "Forbidden")])),
        none⟩,
       [⟨"https://management.azure.com/items?api-version=2024-01-01", "GET", none⟩,
        ⟨"https://management.azure.com/page2", "GET", none⟩]) :=
  (azure_fetchAll_aborts_on_non_2xx ⟨⟨some "tok"⟩⟩ failingPageFetch
    ⟨"/items", "get", "2024-01-01", none, none, none, some true⟩ 2
    "https://management.azure.com/items?api-version=2024-01-01"
    rfl rfl rfl rfl).2
    (azurePaginationErrorMsg 403 "https://management.azure.com/page2"
      (.obj [("error", .str "Forbidden")]))
    [⟨"https://management.azure.com/items?api-version=2024-01-01", "GET", none⟩,
     ⟨"https://management.azure.com/page2", "GET", none⟩] rfl

/-- Counterexample to C6 as stated: during `fetchAll`, a page after the
first whose 2xx body is not valid JSON does NOT abort the aggregation with
an error result — the call succeeds with `error: none` and the items
collected before that page, the malformed page contributing nothing. -/
theorem azure_malformed_midpagination_no_abort_counterexample :
    (malformedPage2Fetch ⟨"https://management.azure.com/page2", "GET", none⟩).json = none
    ∧ (malformedPage2Fetch ⟨"https://management.azure.com/page2", "GET", none⟩).text ≠ ""
    ∧ (malformedPage2Fetch ⟨"https://management.azure.com/page2", "GET", none⟩).ok = true
    ∧ callAzureApi (some ⟨⟨some "tok"⟩⟩) malformedPage2Fetch 5
        ⟨"/items", "get", "2024-01-01", none, none, none, some true⟩ =
        some ⟨some (.obj [("allValues", .arr [.str "a"])]), none, none⟩ :=
  ⟨rfl, by decide, rfl, rfl⟩

/-- C6 (amended): a resource-management response body that is not valid
JSON is degraded to the raw-text wrapper `{ rawResponse: <text> }`; the
parse failure itself never fails the call — the call fails only when the
HTTP status is non-2xx (in which case the error message embeds the
wrapper).  Mid-pagination, a malformed 2xx body on a page after the first
does not abort: it contributes no items and, carrying no `nextLink`, ends
the aggregation with the items collected so far. -/
theorem azure_malformed_body_degrades_to_raw_wrapper
    (am : AuthManager) (fetchFn : FetchRequest → FetchResult) (p : AzureApiCallParams)
    (fuel : Nat)
    (htok : am.azureCredential.tokenOk = true) :
    ((p.fetchAll.getD false && (p.method == "get")) = false →
      (fetchFn ⟨azureUrl p.subscriptionId p.path p.apiVersion p.queryParams,
        jsToUpperCase p.method, azureBody p.method p.body⟩).text ≠ "" →
      (fetchFn ⟨azureUrl p.subscriptionId p.path p.apiVersion p.queryParams,
        jsToUpperCase p.method, azureBody p.method p.body⟩).json = none →
      ((fetchFn ⟨azureUrl p.subscriptionId p.path p.apiVersion p.queryParams,
          jsToUpperCase p.method, azureBody p.method p.body⟩).ok = true →
        callAzureApi (some am) fetchFn fuel p =
          some ⟨some (.obj [("rawResponse",
            .str (fetchFn ⟨azureUrl p.subscriptionId p.path p.apiVersion p.queryParams,
              jsToUpperCase p.method, azureBody p.method p.body⟩).text)]), none, none⟩)
      ∧ ((fetchFn ⟨azureUrl p.subscriptionId p.path p.apiVersion p.queryParams,
          jsToUpperCase p.method, azureBody p.method p.body⟩).ok = false →
        callAzureApi (some am) fetchFn fuel p =
          some ⟨none,
            some (azureSingleErrorMsg
              (fetchFn ⟨azureUrl p.subscriptionId p.path p.apiVersion p.queryParams,
                jsToUpperCase p.method, azureBody p.method p.body⟩).status
              (.obj [("rawResponse",
                .str (fetchFn ⟨azureUrl p.subscriptionId p.path p.apiVersion p.queryParams,
                  jsToUpperCase p.method, azureBody p.method p.body⟩).text)])), none⟩))
    ∧ (∀ (url0 u2 : String) (r1 r2 : FetchResult) (j1 : Json) (va : List Json),
      p.method = "get" → p.fetchAll = some true →
      azureUrl p.subscriptionId p.path p.apiVersion p.queryParams = url0 →
      fetchFn ⟨url0, "GET", none⟩ = r1 → r1.ok = true → parseBody r1 = j1 →
      j1.get "value" = some (.arr va) →
      j1.get "nextLink" = some (.str u2) → u2 ≠ "" → u2 ≠ url0 →
      fetchFn ⟨u2, "GET", none⟩ = r2 → r2.ok = true → r2.text ≠ "" → r2.json = none →
      callAzureApi (some am) fetchFn (fuel + 2) p =
        some ⟨some (.obj [("allValues", .arr va)]), none, none⟩) := by
  constructor
  · intro hnotFA htext hjson
    constructor
    · intro hok
      simp [callAzureApi, callAzureApiT, htok, hnotFA, parseBody, htext, hjson, hok]
    · intro hbad
      simp [callAzureApi, callAzureApiT, htok, hnotFA, parseBody, htext, hjson, hbad]
  · intro url0 u2 r1 r2 j1 va hm hfa hurl hf1 hok1 hp1 hv1 hn1 hu2 hne hf2 hok2 htext2 hjson2
    have hbm : (p.method == "get") = true := by simp [hm]
    have hneb : (u2 == url0) = false := by simp [hne]
    have hp2 : parseBody r2 = .obj [("rawResponse", .str r2.text)] := by
      simp [parseBody, htext2, hjson2]
    have hval2 : (Json.obj [("rawResponse", Json.str r2.text)]).get "value" = none := by
      simp [Json.get, List.lookup]
    have hnl2 : (Json.obj [("rawResponse", Json.str r2.text)]).get "nextLink" = none := by
      simp [Json.get, List.lookup]
    rw [show fuel + 2 = (fuel + 1) + 1 from rfl]
    simp [callAzureApi, callAzureApiT, htok, hfa, hbm, hurl, azureFetchAllLoopT,
      hf1, hok1, hp1, hv1, hn1, hu2, Json.truthy, Json.jsToString,
      hf2, hok2, hp2, hneb, hval2, hnl2, jsTruthyOpt]

/-- Witness for `azure_malformed_body_degrades_to_raw_wrapper`: a concrete
single-page 2xx call with an unparsable body yields the raw-text wrapper
as data with no error. -/
theorem azure_malformed_body_degrades_to_raw_wrapper_witness :
    callAzureApi (some ⟨⟨some "tok"⟩⟩) (fun _ => ⟨200, "not json", none⟩) 1
      ⟨"/res", "get", "2024-01-01", none, none, none, none⟩ =
      some ⟨some (.obj [("rawResponse", .str "not json")]), none, none⟩ :=
  ((azure_malformed_body_degrades_to_raw_wrapper ⟨⟨some "tok"⟩⟩
    (fun _ => ⟨200, "not json", none⟩)
    ⟨"/res", "get", "2024-01-01", none, none, none, none⟩ 1 rfl).1
    rfl (by decide) rfl).1 rfl

/-- C9: outside `ClientProvidedToken` mode, updating the access token is
signalled as an error, not a crash, and mutates no token state —
`updateAccessToken` returns `InvalidOperationError` and the
`set-access-token` handler returns an `isError` result leaving the manager
state untouched; in `ClientProvidedToken` mode the held token and optional
expiry are replaced. -/
theorem update_access_token_mode_guard :
    (∀ (st : AuthManagerState) tok exp, st.mode ≠ AuthMode.ClientProvidedToken →
      updateAccessToken st tok exp = .error "InvalidOperationError"
      ∧ setAccessTokenHandler (some st) tok exp = (⟨setTokenModeErrorMsg, true⟩, some st))
    ∧ (∀ (st : AuthManagerState) tok exp, st.mode = AuthMode.ClientProvidedToken →
      updateAccessToken st tok exp = .ok ⟨st.mode, some tok, exp⟩
      ∧ setAccessTokenHandler (some st) tok exp =
          (⟨setTokenSuccessMsg, false⟩, some ⟨st.mode, some tok, parseExpiry exp⟩)) := by
  constructor
  · intro st tok exp hne
    constructor
    · cases h : st.mode <;> simp_all [updateAccessToken]
    · simp [setAccessTokenHandler, hne]
  · intro st tok exp hcpt
    constructor
    · simp [updateAccessToken, hcpt]
    · simp [setAccessTokenHandler, updateAccessToken, hcpt]

/-- Witness for `update_access_token_mode_guard`: in `Interactive` mode
the handler reports the configuration error and leaves the state as it
was; in `ClientProvidedToken` mode it stores the new token and expiry. -/
theorem update_access_token_mode_guard_witness :
    (updateAccessToken ⟨AuthMode.Interactive, some "old", none⟩ "new" (some "2030-01-01") =
        .error "InvalidOperationError"
      ∧ setAccessTokenHandler (some ⟨AuthMode.Interactive, some "old", none⟩) "new"
          (some "2030-01-01") =
        (⟨setTokenModeErrorMsg, true⟩, some ⟨AuthMode.Interactive, some "old", none⟩))
    ∧ (updateAccessToken ⟨AuthMode.ClientProvidedToken, none, none⟩ "new" (some "2030-01-01") =
        .ok ⟨AuthMode.ClientProvidedToken, some "new", some "2030-01-01"⟩
      ∧ setAccessTokenHandler (some ⟨AuthMode.ClientProvidedToken, none, none⟩) "new"
          (some "2030-01-01") =
        (⟨setTokenSuccessMsg, false⟩,
         some ⟨AuthMode.ClientProvidedToken, some "new", some "2030-01-01"⟩)) :=
  ⟨update_access_token_mode_guard.1 ⟨AuthMode.Interactive, some "old", none⟩ "new"
      (some "2030-01-01") (by decide),
   update_access_token_mode_guard.2 ⟨AuthMode.ClientProvidedToken, none, none⟩ "new"
      (some "2030-01-01") rfl⟩
